import Mathlib

/-!
Shallow embedding of the package-state transition command generator and the
backup/restore reconciler of universal-android-debloater
(src/core/save.rs and src/gui/views/settings.rs).

Conventions of the embedding:
* Machine integers (u16 user ids, the Android SDK level) are modelled as Nat;
  no arithmetic in the embedded code can overflow at the values involved.
* Rust `Vec` is `List`; `Option`/`Result` are `Option`/`Except`.
* A Rust panic (an `unwrap` on `None`, an `expect` on a failed parse, or an
  out-of-range index) is modelled by returning `none` from a function of
  `Option` result type; `some` is the possible set of non-panicking outcomes.
* Filesystem access is passed in explicitly: a directory listing is an
  `Option (List (Option String))` (`none` when `read_dir` fails, individual
  `none` entries for failing dir entries), a file read is an
  `Except String Json` (`Except.error` when `read_to_string` fails).  The
  parsed JSON text is modelled by an explicit `Json` value tree together with
  executable encoders/decoders for the snapshot schema of spec section 6.
* In `apply_pkg_state_commands` (save.rs lines 134-193) the spec's
  `build(current, desired, ...)` corresponds to `backup_pkg.state = current`
  and `phone_pkg.state = desired`: under that correspondence the source's
  match arms reproduce spec section 4.2 rules 1, 2, 3 and 5 and the
  section 8 scenario exactly.
-/

namespace UAD

/-- Package lifecycle state (core/sync.rs `PackageState`, used by save.rs;
spec section 3: `All` is a query wildcard only). -/
inductive PackageState where
  | Enabled
  | Disabled
  | Uninstalled
  | All
deriving DecidableEq, Repr

/-- A package name together with its state (core/sync.rs `CorePackage`,
constructed in save.rs lines 44-47). -/
structure CorePackage where
  name : String
  state : PackageState
deriving DecidableEq, Repr

/-- A device user: device-assigned id and the position of its package list in
the in-memory per-device listing (core/sync.rs `User`; spec section 3). -/
structure User where
  id : Nat
  index : Nat
deriving DecidableEq, Repr

/-- The connected device as used by save.rs: `phone.android_sdk` and
`phone.user_list` (core/sync.rs `Phone`). -/
structure Phone where
  adb_id : String
  model : String
  android_sdk : Nat
  user_list : List User
deriving DecidableEq, Repr

/-- A row of the live per-user package listing
(gui/widgets/package_row.rs `PackageRow`; save.rs uses `p.name`, `p.state`). -/
structure PackageRow where
  name : String
  state : PackageState
deriving DecidableEq, Repr

/-- A backup file path entry (core/utils.rs `DisplayablePath`,
as built in save.rs lines 75-83). -/
structure DisplayablePath where
  path : String
deriving DecidableEq, Repr

/-- Backup-related device settings (core/config.rs `BackupSettings`, fields
as populated in settings.rs lines 93-98). -/
structure BackupSettings where
  backups : List DisplayablePath
  selected : Option DisplayablePath
  users : List User
  selected_user : Option User
deriving DecidableEq, Repr

/-- Per-device settings (core/config.rs `DeviceSettings`; save.rs reads
`multi_user_mode` and `backup`). -/
structure DeviceSettings where
  device_id : String
  multi_user_mode : Bool
  disable_mode : Bool
  backup : BackupSettings
deriving DecidableEq, Repr

/-- The action driving a command build (core/sync.rs `Action`; save.rs
matches the `Misc` and `RestoreDevice` variants). -/
inductive Action where
  | Misc
  | RestoreDevice
deriving DecidableEq, Repr

/-- One user's recorded packages in a snapshot (save.rs lines 20-24). -/
structure UserBackup where
  id : Nat
  packages : List CorePackage
deriving DecidableEq, Repr

/-- A persisted snapshot (save.rs lines 14-18). -/
structure PhoneBackup where
  device_id : String
  users : List UserBackup
deriving DecidableEq, Repr

/-- JSON value tree: the well-formed-text image of serde_json for the
snapshot schema of spec section 6. -/
inductive Json where
  | str (s : String)
  | num (n : Nat)
  | arr (elems : List Json)
  | obj (fields : List (String × Json))

/-- Serde serialization of `PackageState` (derived `Serialize` on the enum). -/
def encodeState : PackageState → Json
  | PackageState.Enabled => Json.str "Enabled"
  | PackageState.Disabled => Json.str "Disabled"
  | PackageState.Uninstalled => Json.str "Uninstalled"
  | PackageState.All => Json.str "All"

/-- Serde deserialization of `PackageState`. -/
def decodeState : Json → Option PackageState
  | Json.str "Enabled" => some PackageState.Enabled
  | Json.str "Disabled" => some PackageState.Disabled
  | Json.str "Uninstalled" => some PackageState.Uninstalled
  | Json.str "All" => some PackageState.All
  | _ => none

/-- Serde serialization of `CorePackage` (derived, canonical field order). -/
def encodePackage (p : CorePackage) : Json :=
  Json.obj [("name", Json.str p.name), ("state", encodeState p.state)]

/-- Serde deserialization of `CorePackage` from the canonical form. -/
def decodePackage : Json → Option CorePackage
  | Json.obj [("name", Json.str n), ("state", s)] =>
    (decodeState s).map (fun st => { name := n, state := st })
  | _ => none

/-- Element-wise decoding of a JSON array; fails if any element fails. -/
def decodeList (d : Json → Option α) : List Json → Option (List α)
  | [] => some []
  | j :: js =>
    match d j with
    | none => none
    | some a =>
      match decodeList d js with
      | none => none
      | some rest => some (a :: rest)

/-- Serde serialization of `UserBackup`. -/
def encodeUserBackup (u : UserBackup) : Json :=
  Json.obj [("id", Json.num u.id), ("packages", Json.arr (u.packages.map encodePackage))]

/-- Serde deserialization of `UserBackup`. -/
def decodeUserBackup : Json → Option UserBackup
  | Json.obj [("id", Json.num i), ("packages", Json.arr ps)] =>
    (decodeList decodePackage ps).map (fun l => { id := i, packages := l })
  | _ => none

/-- Serde serialization of a snapshot (`PhoneBackup`), spec section 6 schema. -/
def encodePhoneBackup (b : PhoneBackup) : Json :=
  Json.obj [("device_id", Json.str b.device_id), ("users", Json.arr (b.users.map encodeUserBackup))]

/-- Serde deserialization of a snapshot. -/
def decodePhoneBackup : Json → Option PhoneBackup
  | Json.obj [("device_id", Json.str d), ("users", Json.arr us)] =>
    (decodeList decodeUserBackup us).map (fun l => { device_id := d, users := l })
  | _ => none

/-- Capture of one user's packages in `backup_phone` (save.rs lines 37-49):
`phone_packages[u.index]` is an unchecked index; an out-of-range index is the
panic, modelled by `none`. -/
def capture_user (phone_packages : List (List PackageRow)) (u : User) : Option UserBackup :=
  match phone_packages[u.index]? with
  | none => none
  | some pkgs => some { id := u.id, packages := pkgs.map (fun p => { name := p.name, state := p.state }) }

/-- The `for u in users` loop of `backup_phone` (save.rs lines 37-50). -/
def capture_users (phone_packages : List (List PackageRow)) : List User → Option (List UserBackup)
  | [] => some []
  | u :: us =>
    match capture_user phone_packages u with
    | none => none
    | some ub =>
      match capture_users phone_packages us with
      | none => none
      | some rest => some (ub :: rest)

/-- The pure capture core of `backup_phone` (save.rs lines 27-50): builds the
`PhoneBackup` value that is then serialized and written.  `none` models the
panic of the unchecked `phone_packages[u.index]` indexing. -/
def backup_phone (users : List User) (device_id : String)
    (phone_packages : List (List PackageRow)) : Option PhoneBackup :=
  (capture_users phone_packages users).map (fun ubs => { device_id := device_id, users := ubs })

/-- `list_available_backups` (save.rs lines 75-83): `fs::read_dir` failure
(modelled `none`) yields `[]`; otherwise failing entries are filtered out
(`filter_map(|e| e.ok())`) and each path is wrapped. -/
def list_available_backups (dir : Option (List (Option String))) : List DisplayablePath :=
  match dir with
  | some entries => (entries.filterMap id).map (fun p => { path := p })
  | none => []

/-- `list_available_backup_user` (save.rs lines 85-102).  The argument is the
outcome of `fs::read_to_string` with the content as a parsed JSON tree.  On a
read failure the error is logged and `[]` returned; on content that does not
decode as the snapshot schema the source calls
`.expect("Unable to parse backup file")`, which panics: modelled `none`. -/
def list_available_backup_user (readResult : Except String Json) : Option (List User) :=
  match readResult with
  | Except.error _ => some []
  | Except.ok data =>
    match decodePhoneBackup data with
    | none => none
    | some phone_backup => some (phone_backup.users.map (fun u => { id := u.id, index := 0 }))

/-- Modelled from the spec: `request_builder` is called by
`apply_pkg_state_commands` (save.rs lines 180-190) but is defined in
core/utils.rs, which is not under src/.  Spec section 4.2: it turns the verb
set into fully-formed commands; given an empty user slice (the apiLevel < 21
call) the command set is emitted exactly once, unscoped by user; otherwise
the sequence is repeated once per user id in the scope. -/
def request_builder (commands : List String) (name : String) (users : List User) : List String :=
  match users with
  | [] => commands.map (fun c => c ++ " " ++ name)
  | us => us.flatMap (fun u => commands.map (fun c => c ++ " --user " ++ toString u.id ++ " " ++ name))

/-- The per-package command set computed by `apply_pkg_state_commands`
(save.rs lines 147-177): the `let commands = match backup_pkg.state`
expression, before the per-user fan-out.  Under the correspondence of the
file header, `backupState` is the spec's current state and `phoneState` the
spec's desired state. -/
def pkg_commands (backupState phoneState : PackageState) (sdk : Nat) : List String :=
  match backupState with
  | PackageState.Enabled =>
    let commands : List String :=
      match phoneState with
      | PackageState.Uninstalled => ["pm disable-user", "am force-stop", "pm clear"]
      | PackageState.Disabled => ["pm uninstall"]
      | _ => []
    if 23 ≤ sdk then commands
    else if sdk = 21 ∨ sdk = 22 then ["pm hide", "pm clear"]
    else if sdk = 19 ∨ sdk = 20 then ["pm block", "pm clear"]
    else ["pm uninstall"]
  | PackageState.Uninstalled =>
    if 23 ≤ sdk then ["cmd package install-existing"]
    else if sdk = 21 ∨ sdk = 22 then ["pm unhide"]
    else if sdk = 19 ∨ sdk = 20 then ["pm unblock", "pm clear"]
    else []
  | PackageState.Disabled =>
    if 23 ≤ sdk then ["pm enable"] else ["pm enable"]
  | PackageState.All => []

/-- `apply_pkg_state_commands` (save.rs lines 134-193).  The source's final
block refers to the acted-on package as `package`; both package arguments
carry the same name at every call site and the embedding uses `phone_pkg`'s
name.  The no-op guard is lines 143-145; the fan-out lines 179-192. -/
def apply_pkg_state_commands (selected_user : User) (backup_pkg phone_pkg : CorePackage)
    (phone : Phone) (settings : DeviceSettings) (action : Action) : List String :=
  if phone_pkg.state = backup_pkg.state then []
  else
    let commands := pkg_commands backup_pkg.state phone_pkg.state phone.android_sdk
    if phone.android_sdk < 21 then request_builder commands phone_pkg.name []
    else
      match action with
      | Action.Misc =>
        if settings.multi_user_mode then request_builder commands phone_pkg.name phone.user_list
        else request_builder commands phone_pkg.name [selected_user]
      | Action.RestoreDevice => request_builder commands phone_pkg.name phone.user_list

/-- The user scope chosen by the fan-out of `apply_pkg_state_commands`
(save.rs lines 182-191) when apiLevel is at least 21. -/
def effective_scope (selected_user : User) (phone : Phone) (settings : DeviceSettings)
    (action : Action) : List User :=
  match action with
  | Action.Misc =>
    if settings.multi_user_mode then phone.user_list else [selected_user]
  | Action.RestoreDevice => phone.user_list

/-- Modelled from the spec: `change_pkg_state_commands` is called by
`restore_backup` (save.rs line 119) but is not defined under src/.  Spec
section 4.4: look the recorded package's name up in the live listing for the
user, defaulting an absent package's live state to Enabled, then delegate to
the builder — per the section 8 scenario the live state is passed as the
builder's current (`backup_pkg`) side and the recorded package as the desired
(`phone_pkg`) side. -/
def change_pkg_state_commands (selected_user : User) (live : List CorePackage)
    (recorded : CorePackage) (phone : Phone) (settings : DeviceSettings)
    (action : Action) : List String :=
  let liveState :=
    match live.find? (fun q => q.name = recorded.name) with
    | some q => q.state
    | none => PackageState.Enabled
  apply_pkg_state_commands selected_user { name := recorded.name, state := liveState }
    recorded phone settings action

/-- The inner `for packages in u.packages` loop of `restore_backup`
(save.rs lines 118-126): each iteration unwraps
`settings.backup.selected_user` (panic, modelled `none`, when it is absent)
and extends the command list. -/
def restore_packages (selected_user : Option User) (live : List CorePackage)
    (phone : Phone) (settings : DeviceSettings) : List CorePackage → Option (List String)
  | [] => some []
  | p :: ps =>
    match selected_user with
    | none => none
    | some su =>
      match restore_packages selected_user live phone settings ps with
      | none => none
      | some rest =>
        some (change_pkg_state_commands su live p phone settings Action.RestoreDevice ++ rest)

/-- The outer `for u in phone_backup.users` loop of `restore_backup`
(save.rs lines 117-127): every user recorded in the snapshot is visited. -/
def restore_users (selected_user : Option User) (live : List CorePackage)
    (phone : Phone) (settings : DeviceSettings) : List UserBackup → Option (List String)
  | [] => some []
  | u :: us =>
    match restore_packages selected_user live phone settings u.packages with
    | none => none
    | some cs =>
      match restore_users selected_user live phone settings us with
      | none => none
      | some rest => some (cs ++ rest)

/-- `restore_backup` (save.rs lines 107-132).  `settings.backup.selected` is
unwrapped unchecked (panic, modelled `none`, when no backup is selected); a
`read_to_string` failure returns an `Err` message; content that does not
decode as the snapshot schema hits `.expect("Unable to parse backup file")`
(panic, modelled `none`).  `live` is the spec's live listing consumed by the
spec-modelled `change_pkg_state_commands`; `readFile` models the filesystem. -/
def restore_backup (selected_device : Phone) (settings : DeviceSettings)
    (live : List CorePackage) (readFile : String → Except String Json) :
    Option (Except String (List String)) :=
  match settings.backup.selected with
  | none => none
  | some sel =>
    match readFile sel.path with
    | Except.error e => some (Except.error ("[BACKUP]: " ++ e))
    | Except.ok data =>
      match decodePhoneBackup data with
      | none => none
      | some phone_backup =>
        match restore_users settings.backup.selected_user live selected_device settings
            phone_backup.users with
        | none => none
        | some commands => some (Except.ok commands)

/-- The (user id, package name, state) triples of one snapshot user. -/
def userTriples (u : UserBackup) : List (Nat × String × PackageState) :=
  u.packages.map (fun p => (u.id, p.name, p.state))

/-- The (user id, package name, state) triples recorded in a snapshot. -/
def snapshotTriples (b : PhoneBackup) : List (Nat × String × PackageState) :=
  b.users.flatMap userTriples

/-- The (user id, package name, state) triples of a live per-user listing,
addressed the way `backup_phone` addresses it: by each user's index. -/
def listingTriples (users : List User) (phone_packages : List (List PackageRow)) :
    List (Nat × String × PackageState) :=
  users.flatMap (fun u => (phone_packages[u.index]?.getD []).map (fun p => (u.id, p.name, p.state)))

lemma decodeState_encodeState (s : PackageState) : decodeState (encodeState s) = some s := by
  cases s <;> rfl

lemma decodePackage_encodePackage (p : CorePackage) :
    decodePackage (encodePackage p) = some p := by
  cases p with
  | mk n st => simp [encodePackage, decodePackage, decodeState_encodeState]

lemma decodeList_map_encode {α : Type} (d : Json → Option α) (e : α → Json)
    (hd : ∀ a, d (e a) = some a) (l : List α) :
    decodeList d (l.map e) = some l := by
  induction l with
  | nil => rfl
  | cons a as ih => simp [decodeList, hd, ih]

lemma decodeUserBackup_encodeUserBackup (u : UserBackup) :
    decodeUserBackup (encodeUserBackup u) = some u := by
  cases u with
  | mk i ps =>
    simp [encodeUserBackup, decodeUserBackup,
      decodeList_map_encode decodePackage encodePackage decodePackage_encodePackage]

lemma decodePhoneBackup_encodePhoneBackup (b : PhoneBackup) :
    decodePhoneBackup (encodePhoneBackup b) = some b := by
  cases b with
  | mk d us =>
    simp [encodePhoneBackup, decodePhoneBackup,
      decodeList_map_encode decodeUserBackup encodeUserBackup decodeUserBackup_encodeUserBackup]

lemma capture_user_isSome (phone_packages : List (List PackageRow)) (u : User) :
    (capture_user phone_packages u).isSome ↔ u.index < phone_packages.length := by
  unfold capture_user
  cases h : phone_packages[u.index]? with
  | none =>
    simp only [Option.isSome_none, Bool.false_eq_true, false_iff]
    rw [List.getElem?_eq_none_iff] at h
    omega
  | some pkgs =>
    simp only [Option.isSome_some, true_iff]
    exact (List.getElem?_eq_some.mp h).1

lemma capture_users_isSome (phone_packages : List (List PackageRow)) (users : List User) :
    (capture_users phone_packages users).isSome ↔
      ∀ u ∈ users, u.index < phone_packages.length := by
  induction users with
  | nil => simp [capture_users]
  | cons u us ih =>
    unfold capture_users
    cases h : capture_user phone_packages u with
    | none =>
      have := capture_user_isSome phone_packages u
      rw [h] at this
      simp only [Option.isSome_none, Bool.false_eq_true, false_iff] at this ⊢
      intro hall
      exact this (hall u (by simp))
    | some ub =>
      have hu : u.index < phone_packages.length := by
        have := capture_user_isSome phone_packages u
        rw [h] at this
        exact this.mp rfl
      cases h2 : capture_users phone_packages us with
      | none =>
        rw [h2] at ih
        simp only [Option.isSome_none, Bool.false_eq_true, false_iff] at ih ⊢
        intro hall
        exact ih (fun v hv => hall v (by simp [hv]))
      | some rest =>
        rw [h2] at ih
        simp only [Option.isSome_some, true_iff] at ih ⊢
        intro v hv
        rcases List.mem_cons.mp hv with hv | hv
        · exact hv ▸ hu
        · exact ih v hv

/-- The first on-device user, as used in the concrete evaluations below. -/
def user0 : User := { id := 0, index := 0 }

/-- A second on-device user, as used in the concrete evaluations below. -/
def user1 : User := { id := 1, index := 1 }

/-- A concrete device at API level 23 with the single user `user0`. -/
def phone23 : Phone :=
  { adb_id := "serial", model := "Pixel", android_sdk := 23, user_list := [user0] }

/-- A concrete device at API level 23 with the users `user0` and `user1`. -/
def phone23two : Phone :=
  { adb_id := "serial", model := "Pixel", android_sdk := 23, user_list := [user0, user1] }

/-- Concrete device settings with the given backup selection, target user and
multi-user mode. -/
def mkSettings (sel : Option DisplayablePath) (su : Option User) (mum : Bool) : DeviceSettings :=
  { device_id := "serial", multi_user_mode := mum, disable_mode := false,
    backup := { backups := sel.toList, selected := sel, users := [], selected_user := su } }

lemma isSome_option_map {α β : Type} (f : α → β) (o : Option α) :
    (o.map f).isSome = o.isSome := by
  cases o <;> rfl

lemma request_builder_flatMap (commands : List String) (name : String)
    (users : List User) (h : users ≠ []) :
    request_builder commands name users =
      users.flatMap (fun u =>
        commands.map (fun c => c ++ " --user " ++ toString u.id ++ " " ++ name)) := by
  cases users with
  | nil => exact absurd rfl h
  | cons u us => rfl

lemma apply_eq_request_builder_scope (selected_user : User) (backup_pkg phone_pkg : CorePackage)
    (phone : Phone) (settings : DeviceSettings) (action : Action)
    (h21 : 21 ≤ phone.android_sdk) (hne : phone_pkg.state ≠ backup_pkg.state) :
    apply_pkg_state_commands selected_user backup_pkg phone_pkg phone settings action =
      request_builder (pkg_commands backup_pkg.state phone_pkg.state phone.android_sdk)
        phone_pkg.name (effective_scope selected_user phone settings action) := by
  unfold apply_pkg_state_commands effective_scope
  rw [if_neg hne, if_neg (by omega : ¬ phone.android_sdk < 21)]
  cases action with
  | Misc => cases h : settings.multi_user_mode <;> simp [h]
  | RestoreDevice => rfl

lemma pkg_commands_enabled_uninstalled_api23 (sdk : Nat) (h : 23 ≤ sdk) :
    pkg_commands PackageState.Enabled PackageState.Uninstalled sdk =
      ["pm disable-user", "am force-stop", "pm clear"] := by
  unfold pkg_commands
  rw [if_pos h]

/-- C8: building a transition whose current state equals its desired state
returns the empty command sequence, for every state, every apiLevel, every
package name, every scope selection and every action (save.rs lines 143-145). -/
theorem c8_noop_when_states_equal (s : PackageState) (selected_user : User)
    (n1 n2 : String) (phone : Phone) (settings : DeviceSettings) (action : Action) :
    apply_pkg_state_commands selected_user { name := n1, state := s }
      { name := n2, state := s } phone settings action = [] := by
  simp [apply_pkg_state_commands]

/-- C6: building the transition with current state Disabled and desired state
Enabled yields the single command `pm enable`, identically at every API tier:
the `Disabled` arm of the match in save.rs lines 172-175 returns `pm enable`
for every value of `android_sdk`, before the generic per-user fan-out. -/
theorem c6_enable_identical_across_tiers (sdk : Nat) :
    pkg_commands PackageState.Disabled PackageState.Enabled sdk = ["pm enable"] := by
  unfold pkg_commands
  exact ite_self _

/-- C9: `list_available_backups` is total — it returns a plain (possibly
empty) list, never an error value: a missing or unreadable directory (the
`Err` branch of `fs::read_dir`, save.rs line 81) yields the empty list, and a
readable directory yields its readable entries wrapped as paths. -/
theorem c9_list_backups_total :
    list_available_backups none = [] ∧
      ∀ entries : List (Option String),
        list_available_backups (some entries) =
          (entries.filterMap id).map (fun p => { path := p }) :=
  ⟨rfl, fun _ => rfl⟩

/-- C10: `backup_phone` indexes the per-user listing by each user's `index`
field without a bounds check (save.rs line 43): it reaches a result (models
`isSome`) exactly when every user's index is strictly below the length of
`phone_packages`, and on the concrete violating input of one user with index
1 against a one-element listing the indexing is out of range (the panic,
modelled `none`). -/
theorem c10_backup_phone_index_precondition :
    (∀ (users : List User) (device_id : String) (phone_packages : List (List PackageRow)),
      (backup_phone users device_id phone_packages).isSome ↔
        ∀ u ∈ users, u.index < phone_packages.length) ∧
      backup_phone [{ id := 7, index := 1 }] "d" [[]] = none := by
  constructor
  · intro users device_id phone_packages
    unfold backup_phone
    rw [isSome_option_map]
    exact capture_users_isSome phone_packages users
  · rfl

/-- C2 (code bug): on a readable snapshot file whose content does not decode
as the snapshot schema, `list_available_backup_user` panics through
`.expect("Unable to parse backup file")` (save.rs line 89) instead of
returning the empty list the spec requires (`none` models the panic), while
an unreadable file does produce the recoverable empty list (save.rs
lines 97-100).  This theorem evaluates the embedded code at both inputs. -/
theorem c2_parse_panic_on_malformed_backup :
    list_available_backup_user (Except.ok (Json.str "oops")) = none ∧
      list_available_backup_user (Except.error "file not found") = some [] :=
  ⟨rfl, rfl⟩

/-- C3 (code bug): with no backup snapshot selected
(`settings.backup.selected = None`), `restore_backup` panics through
`Option::unwrap` (save.rs line 111) instead of returning an error value
(`none` models the panic); a read failure on a selected backup, by contrast,
does come back as a recoverable `Err` message (save.rs line 130).  This
theorem evaluates the embedded code at both inputs. -/
theorem c3_unwrap_panic_on_missing_selection :
    restore_backup phone23 (mkSettings none (some user0) false) []
        (fun _ => Except.error "gone") = none ∧
      restore_backup phone23 (mkSettings (some { path := "b.json" }) (some user0) false) []
        (fun _ => Except.error "gone") = some (Except.error "[BACKUP]: gone") :=
  ⟨rfl, rfl⟩

/-- C1: for every apiLevel at least 23, every package name, every scope
selection (any action and settings) with a nonempty user scope, building the
transition with current state Enabled and desired state Uninstalled yields
exactly the ordered sequence disable-user, force-stop, clear — disable-user
first — replicated once per user id in the scope (save.rs lines 147-156 and
179-192). -/
theorem c1_disable_sequence_api23 (selected_user : User) (name : String)
    (phone : Phone) (settings : DeviceSettings) (action : Action)
    (h23 : 23 ≤ phone.android_sdk)
    (hs : effective_scope selected_user phone settings action ≠ []) :
    apply_pkg_state_commands selected_user { name := name, state := PackageState.Enabled }
      { name := name, state := PackageState.Uninstalled } phone settings action =
      (effective_scope selected_user phone settings action).flatMap (fun u =>
        ["pm disable-user --user " ++ toString u.id ++ " " ++ name,
         "am force-stop --user " ++ toString u.id ++ " " ++ name,
         "pm clear --user " ++ toString u.id ++ " " ++ name]) := by
  rw [apply_eq_request_builder_scope _ _ _ _ _ _ (by omega) (by simp),
    request_builder_flatMap _ _ _ hs]
  simp [pkg_commands_enabled_uninstalled_api23 _ h23]

/-- Witness for C1 at a concrete input: device at API 23 with the single
user 0, a restore action on package com.foo. -/
theorem c1_disable_sequence_api23_witness :
    23 ≤ phone23.android_sdk ∧
      apply_pkg_state_commands user0 { name := "com.foo", state := PackageState.Enabled }
        { name := "com.foo", state := PackageState.Uninstalled } phone23
        (mkSettings none (some user0) false) Action.RestoreDevice =
        ["pm disable-user --user 0 com.foo", "am force-stop --user 0 com.foo",
         "pm clear --user 0 com.foo"] :=
  ⟨by decide,
    (c1_disable_sequence_api23 user0 "com.foo" phone23 (mkSettings none (some user0) false)
      Action.RestoreDevice (by decide) (by decide)).trans (by decide)⟩

/-- C4: on a device at apiLevel at least 21, for any transition that is not a
no-op, an interactive (Misc) action with multi-user mode off fans the command
sequence out to exactly the one selected user, while a restore action fans it
out to every user in the device's user list for every value of the settings
(save.rs lines 182-191). -/
theorem c4_scope_fanout_policies (selected_user : User) (backup_pkg phone_pkg : CorePackage)
    (phone : Phone) (settings : DeviceSettings)
    (h21 : 21 ≤ phone.android_sdk) (hne : phone_pkg.state ≠ backup_pkg.state) :
    (settings.multi_user_mode = false →
      apply_pkg_state_commands selected_user backup_pkg phone_pkg phone settings Action.Misc =
        request_builder (pkg_commands backup_pkg.state phone_pkg.state phone.android_sdk)
          phone_pkg.name [selected_user]) ∧
      apply_pkg_state_commands selected_user backup_pkg phone_pkg phone settings
          Action.RestoreDevice =
        request_builder (pkg_commands backup_pkg.state phone_pkg.state phone.android_sdk)
          phone_pkg.name phone.user_list := by
  constructor
  · intro hm
    rw [apply_eq_request_builder_scope _ _ _ _ _ _ h21 hne]
    simp [effective_scope, hm]
  · rw [apply_eq_request_builder_scope _ _ _ _ _ _ h21 hne]
    rfl

/-- Witness for C4 at a concrete input: a two-user device at API 23,
selected user 1, multi-user mode off; the interactive action reaches only
user 1, the restore action reaches users 0 and 1. -/
theorem c4_scope_fanout_policies_witness :
    apply_pkg_state_commands user1 { name := "a", state := PackageState.Disabled }
        { name := "a", state := PackageState.Enabled } phone23two
        (mkSettings none (some user1) false) Action.Misc = ["pm enable --user 1 a"] ∧
      apply_pkg_state_commands user1 { name := "a", state := PackageState.Disabled }
        { name := "a", state := PackageState.Enabled } phone23two
        (mkSettings none (some user1) false) Action.RestoreDevice =
        ["pm enable --user 0 a", "pm enable --user 1 a"] := by
  have h := c4_scope_fanout_policies user1 { name := "a", state := PackageState.Disabled }
    { name := "a", state := PackageState.Enabled } phone23two
    (mkSettings none (some user1) false) (by decide) (by simp)
  exact ⟨(h.1 rfl).trans (by decide), h.2.trans (by decide)⟩

lemma restore_packages_some (su : User) (live : List CorePackage) (phone : Phone)
    (settings : DeviceSettings) (ps : List CorePackage) :
    restore_packages (some su) live phone settings ps =
      some (ps.flatMap (fun p =>
        change_pkg_state_commands su live p phone settings Action.RestoreDevice)) := by
  induction ps with
  | nil => rfl
  | cons p ps ih => simp [restore_packages, ih]

lemma restore_users_some (su : User) (live : List CorePackage) (phone : Phone)
    (settings : DeviceSettings) (us : List UserBackup) :
    restore_users (some su) live phone settings us =
      some (us.flatMap (fun u => u.packages.flatMap (fun p =>
        change_pkg_state_commands su live p phone settings Action.RestoreDevice))) := by
  induction us with
  | nil => rfl
  | cons u us ih => simp [restore_users, restore_packages_some, ih]

/-- A concrete snapshot recording nothing for user id 0 and one Uninstalled
package for user id 1, used to settle C5. -/
def pbX : PhoneBackup :=
  { device_id := "dev",
    users := [{ id := 0, packages := [] },
      { id := 1, packages := [{ name := "com.bar", state := PackageState.Uninstalled }] }] }

/-- Counterexample to C5 as stated: the snapshot `pbX` records no package for
the target user (id 0, the selected backup user), yet the restore plan is the
nonempty command list produced from the package recorded for user id 1 —
`restore_backup` iterates over every user of the snapshot (save.rs
lines 117-127), so packages recorded for other user ids do contribute.  The
claim predicts the empty plan at this input. -/
theorem c5_counterexample_other_user_contributes :
    pbX.users = [{ id := 0, packages := [] },
      { id := 1, packages := [{ name := "com.bar", state := PackageState.Uninstalled }] }] ∧
      user0.id = 0 ∧
      restore_backup phone23 (mkSettings (some { path := "b.json" }) (some user0) false) []
          (fun _ => Except.ok (encodePhoneBackup pbX)) =
        some (Except.ok ["pm disable-user --user 0 com.bar", "am force-stop --user 0 com.bar",
          "pm clear --user 0 com.bar"]) ∧
      ["pm disable-user --user 0 com.bar", "am force-stop --user 0 com.bar",
        "pm clear --user 0 com.bar"] ≠ ([] : List String) :=
  ⟨rfl, rfl, rfl, by decide⟩

/-- C5 amended: for every snapshot that is selected, readable and
well-formed, and every selected target user, the restore plan is the
concatenation, in snapshot iteration order, of the per-package command
sequences of the packages recorded under EVERY user id of the snapshot (not
only the target user's), each reconciled against the selected target user
(save.rs lines 107-132; the per-package step is the spec-modelled
`change_pkg_state_commands`). -/
theorem c5_plan_covers_all_snapshot_users (phone : Phone) (settings : DeviceSettings)
    (live : List CorePackage) (readFile : String → Except String Json)
    (sel : DisplayablePath) (data : Json) (pb : PhoneBackup) (su : User)
    (h1 : settings.backup.selected = some sel)
    (h2 : readFile sel.path = Except.ok data)
    (h3 : decodePhoneBackup data = some pb)
    (h4 : settings.backup.selected_user = some su) :
    restore_backup phone settings live readFile =
      some (Except.ok (pb.users.flatMap (fun u => u.packages.flatMap (fun p =>
        change_pkg_state_commands su live p phone settings Action.RestoreDevice)))) := by
  unfold restore_backup
  simp only [h1, h2, h3, h4, restore_users_some]

/-- Witness for C5's amended theorem at a concrete input: the snapshot `pbX`
read back from its own serialization, target user 0. -/
theorem c5_plan_covers_all_snapshot_users_witness :
    restore_backup phone23 (mkSettings (some { path := "b.json" }) (some user0) false) []
        (fun _ => Except.ok (encodePhoneBackup pbX)) =
      some (Except.ok (pbX.users.flatMap (fun u => u.packages.flatMap (fun p =>
        change_pkg_state_commands user0 [] p phone23
          (mkSettings (some { path := "b.json" }) (some user0) false)
          Action.RestoreDevice)))) :=
  c5_plan_covers_all_snapshot_users phone23
    (mkSettings (some { path := "b.json" }) (some user0) false) []
    (fun _ => Except.ok (encodePhoneBackup pbX)) { path := "b.json" }
    (encodePhoneBackup pbX) pbX user0 rfl rfl rfl rfl

lemma capture_user_triples (phone_packages : List (List PackageRow)) (u : User)
    (ub : UserBackup) (h : capture_user phone_packages u = some ub) :
    userTriples ub =
      (phone_packages[u.index]?.getD []).map (fun p => (u.id, p.name, p.state)) := by
  unfold capture_user at h
  split at h
  · simp at h
  · rename_i pkgs heq
    injection h with h
    subst h
    rw [heq]
    simp only [userTriples, List.map_map, Option.getD_some]
    rfl

lemma capture_users_triples (phone_packages : List (List PackageRow)) :
    ∀ (users : List User) (ubs : List UserBackup),
      capture_users phone_packages users = some ubs →
        ubs.flatMap userTriples = listingTriples users phone_packages := by
  intro users
  induction users with
  | nil =>
    intro ubs h
    unfold capture_users at h
    injection h with h
    subst h
    rfl
  | cons u us ih =>
    intro ubs h
    unfold capture_users at h
    split at h
    · simp at h
    · rename_i ub heq
      split at h
      · simp at h
      · rename_i rest heq2
        injection h with h
        subst h
        rw [List.flatMap_cons, ih rest heq2]
        unfold listingTriples
        rw [List.flatMap_cons]
        congr 1
        exact capture_user_triples phone_packages u ub heq

/-- C7: whenever the capture of `backup_phone` succeeds on a (non-empty)
per-user listing — it copies every package's name and state for each listed
user, without filtering by state (save.rs lines 37-50) — serializing the
snapshot and reading it back succeeds and reproduces exactly the (user id,
package name, state) triples of the original listing, in order (hence in
particular the same set of triples). -/
theorem c7_backup_roundtrip_triples (users : List User) (device_id : String)
    (phone_packages : List (List PackageRow)) (b : PhoneBackup)
    (_hne : phone_packages ≠ [])
    (h : backup_phone users device_id phone_packages = some b) :
    decodePhoneBackup (encodePhoneBackup b) = some b ∧
      snapshotTriples b = listingTriples users phone_packages := by
  refine ⟨decodePhoneBackup_encodePhoneBackup b, ?_⟩
  unfold backup_phone at h
  cases h1 : capture_users phone_packages users with
  | none => rw [h1] at h; simp at h
  | some ubs =>
    rw [h1] at h
    injection h with h
    subst h
    unfold snapshotTriples
    exact capture_users_triples phone_packages users ubs h1

/-- The single live package row used by the C7 witness. -/
def rowW : PackageRow := ⟨"com.foo", PackageState.Disabled⟩

/-- The snapshot captured from the one-user listing of the C7 witness. -/
def bW : PhoneBackup := ⟨"dev", [⟨0, [⟨"com.foo", PackageState.Disabled⟩]⟩]⟩

/-- Witness for C7 at a concrete input: one user (id 0, index 0) with the
single package com.foo in state Disabled. -/
theorem c7_backup_roundtrip_triples_witness :
    ([[rowW]] : List (List PackageRow)) ≠ [] ∧
      decodePhoneBackup (encodePhoneBackup bW) = some bW ∧
        snapshotTriples bW = listingTriples [user0] [[rowW]] :=
  ⟨by simp, c7_backup_roundtrip_triples [user0] "dev" [[rowW]] bW (by simp) rfl⟩

end UAD
